import Mathlib

set_option autoImplicit false

/-!
Verification of the agencyai repository: a shallow embedding of the
retry-with-backoff HTTP wrapper, the concept-list parser, the two UI
actions (`generateIdeas`, `visualizeConcept`) and the proxy route
(`POST /generate-image`), together with theorems settling the
specification claims about them.
-/

namespace AgencyAI

/-- What one attempt of the wrapper observes.  `ok body` is a response with
`response.ok` true whose JSON body parses to `body`; `tooMany` is HTTP 429;
`fail status errMsg` is any other non-ok response whose error body parses to
JSON with optional field `error.message = errMsg` (`none` when the field is
absent); `failBadBody m` is a non-ok response whose error body is not JSON,
so `response.json()` itself throws an error with message `m`; `netError m`
is a `fetch` call that throws (network failure) with message `m`. -/
inductive Response (β : Type) where
  | ok (body : β)
  | tooMany
  | fail (status : Nat) (errMsg : Option String)
  | failBadBody (parseMsg : String)
  | netError (msg : String)
deriving DecidableEq, Repr

/-- The result of a whole `fetchWithBackoff` invocation: either the parsed
JSON body of a successful response, or a thrown error with a message. -/
inductive Outcome (β : Type) where
  | ok (body : β)
  | error (msg : String)
deriving DecidableEq, Repr

/-- The template string in the source: HTTP error! status: S. -/
def httpStatusMsg (status : Nat) : String :=
  "HTTP error! status: " ++ toString status

/-- The message of the error thrown for a non-ok non-429 response:
`errData.error?.message || template`.  JavaScript falls through the `||`
when the field is absent (undefined) or the empty string (falsy). -/
def failMessage (status : Nat) (errMsg : Option String) : String :=
  match errMsg with
  | some m => if m = "" then httpStatusMsg status else m
  | none => httpStatusMsg status

/-- The message of the error thrown inside the loop body for a given
attempt's response, `none` when the attempt does not throw (success, or a
429 which only sleeps). -/
def thrownMsg {β : Type} : Response β → Option String
  | .ok _ => none
  | .tooMany => none
  | .fail s em => some (failMessage s em)
  | .failBadBody m => some m
  | .netError m => some m

/-- Whether an attempt's response is a success (`response.ok`). -/
def isOkResponse {β : Type} : Response β → Bool
  | .ok _ => true
  | _ => false

/-- The for-loop of `fetchWithBackoff`.  `i` is the loop index, `remaining`
is `maxRetries - i`, `delay` the current backoff delay, `trace` the list of
delays slept so far (each sleep appends the delay it waits, after which the
delay doubles).  A non-ok non-429 response throws; the throw is caught by
the same iteration's catch, which rethrows on the last iteration
(`i === maxRetries - 1`) and otherwise sleeps and retries.  A 429 sleeps
and retries unconditionally; if the loop then ends, the generic error after
the loop is thrown. -/
def fetchLoop {β : Type} (resp : Nat → Response β) :
    Nat → Nat → Nat → List Nat → Outcome β × List Nat
  | _, 0, _, trace => (.error "Request failed after multiple retries.", trace)
  | i, remaining + 1, delay, trace =>
    match resp i with
    | .ok body => (.ok body, trace)
    | .tooMany => fetchLoop resp (i + 1) remaining (delay * 2) (trace ++ [delay])
    | .fail s em =>
      if remaining = 0 then (.error (failMessage s em), trace)
      else fetchLoop resp (i + 1) remaining (delay * 2) (trace ++ [delay])
    | .failBadBody m =>
      if remaining = 0 then (.error m, trace)
      else fetchLoop resp (i + 1) remaining (delay * 2) (trace ++ [delay])
    | .netError m =>
      if remaining = 0 then (.error m, trace)
      else fetchLoop resp (i + 1) remaining (delay * 2) (trace ++ [delay])

/-- `fetchWithBackoff(url, options, maxRetries = 5)`: run the loop starting
at attempt 0 with a 1000 ms delay.  The url/options pair is abstracted into
the attempt-indexed response oracle `resp`.  Returns the outcome together
with the trace of delays slept. -/
def fetchWithBackoff {β : Type} (resp : Nat → Response β)
    (maxRetries : Nat := 5) : Outcome β × List Nat :=
  fetchLoop resp 0 maxRetries 1000 []

/-- The ASCII part of JavaScript regex `\s` (and of `String.prototype.trim`):
space, tab, newline, carriage return, vertical tab, form feed.  The inputs
of the claims are ASCII, so the non-ASCII whitespace code points are not
modelled. -/
def jsWhitespace (c : Char) : Bool :=
  c = ' ' || c = '\t' || c = '\n' || c = '\r' || c = '\x0b' || c = '\x0c'

/-- Length of a match of the regex `\d+\.\s+` starting at the head of `cs`,
`none` when the regex does not match there.  Greedy maximal-munch is exact
here: a shorter `\d+` is followed by a digit, never by the literal dot, so
backtracking cannot produce a match that maximal-munch misses. -/
def markerLen (cs : List Char) : Option Nat :=
  let ds := cs.takeWhile Char.isDigit
  if ds.isEmpty then none
  else
    match cs.drop ds.length with
    | '.' :: rest =>
      let ws := rest.takeWhile jsWhitespace
      if ws.isEmpty then none else some (ds.length + 1 + ws.length)
    | _ => none

/-- `text.split(/\d+\.\s+/)` on a character list: scan left to right; at a
match of the separator emit the fragment accumulated so far (`acc`,
reversed) and restart after the match; otherwise move one character into
the accumulator.  Adjacent or leading/trailing matches yield empty
fragments, as in JavaScript.  `fuel` bounds the recursion; with
`fuel ≥ cs.length` it is never exhausted because every step consumes at
least one character. -/
def splitNumAux : Nat → List Char → List Char → List (List Char)
  | _, [], acc => [acc.reverse]
  | 0, cs, acc => [acc.reverse ++ cs]
  | fuel + 1, c :: cs, acc =>
    match markerLen (c :: cs) with
    | some n => acc.reverse :: splitNumAux fuel ((c :: cs).drop n) []
    | none => splitNumAux fuel cs (c :: acc)

/-- `text.split(/\d+\.\s+/)` as a function on strings. -/
def jsSplitNumbered (s : String) : List String :=
  (splitNumAux s.data.length s.data []).map fun l => String.mk l

/-- `s.trim()`: strip JavaScript whitespace from both ends. -/
def jsTrim (s : String) : String :=
  String.mk (((s.data.dropWhile jsWhitespace).reverse.dropWhile jsWhitespace).reverse)

/-- One generated campaign concept:
`{ id: Date.now() + index, text: conceptText.trim(), imageUrl: null }`. -/
structure Concept where
  id : Nat
  text : String
  imageUrl : Option String
deriving DecidableEq, Repr

/-- Lines 94–101 of the app: split the generated text on the numbered-list
marker, keep the fragments that are non-empty after trimming, and build the
concept records.  `now` stands for `Date.now()` at parse time; the index
passed to `map` is the index in the filtered array. -/
def parseConcepts (now : Nat) (text : String) : List Concept :=
  ((jsSplitNumbered text).filter fun c => 0 < (jsTrim c).length).enum.map
    fun p => { id := now + p.1, text := jsTrim p.2, imageUrl := none }

/-- The UI session state (the `useState` cells the claims are about).  The
creativity dial only feeds the prompt string, which is abstracted away with
the network layer, so it is not carried here. -/
structure AppState where
  apiKey : String
  brief : String
  concepts : List Concept
  isLoadingIdeas : Bool
  loadingImageId : Option Nat
  error : Option String
deriving DecidableEq, Repr

/-- `generateIdeas`: the text-generation action.  The network interaction
is abstracted to `net`, the outcome of the `fetchWithBackoff` call, whose
success body is abstracted to the extracted field
`result?.candidates?.[0]?.content?.parts?.[0]?.text` (`none` when the chain
is absent).  Returns the new state and the number of network calls
performed.  An empty brief (`!brief`) returns early with a validation
error; otherwise the loading flag is set, the error cleared, the concept
list cleared, the call made, and either the parsed concepts stored or the
caught error surfaced; `finally` clears the loading flag. -/
def generateIdeas (st : AppState) (now : Nat) (net : Outcome (Option String)) :
    AppState × Nat :=
  if st.brief = "" then
    ({ st with error := some "Please enter a creative brief." }, 0)
  else
    let st1 : AppState := { st with isLoadingIdeas := true, error := none, concepts := [] }
    let st2 : AppState :=
      match net with
      | .ok textOpt =>
        match textOpt with
        | some t =>
          if t = "" then
            { st1 with error := some ("Failed to generate ideas. " ++ "Invalid response structure from API.") }
          else
            { st1 with concepts := parseConcepts now t }
        | none =>
          { st1 with error := some ("Failed to generate ideas. " ++ "Invalid response structure from API.") }
      | .error msg => { st1 with error := some ("Failed to generate ideas. " ++ msg) }
    ({ st2 with isLoadingIdeas := false }, 1)

/-- `visualizeConcept(conceptId, conceptText)`: the image action.  The
network interaction is abstracted to `net`, the outcome of the
`fetchWithBackoff` call, whose success body is abstracted to the
`predictions` array reduced to each prediction's optional
`bytesBase64Encoded` field.  The guard
`result.predictions && result.predictions.length > 0 &&
result.predictions[0].bytesBase64Encoded` requires a present, non-empty
array whose first element has a truthy (present, non-empty) field; then
only the matching concept's `imageUrl` is replaced via `map`; `finally`
clears the loading identifier. -/
def visualizeConcept (st : AppState) (conceptId : Nat)
    (net : Outcome (Option (List (Option String)))) : AppState :=
  let st1 : AppState := { st with loadingImageId := some conceptId, error := none }
  let st2 : AppState :=
    match net with
    | .ok body =>
      match body with
      | some (some b64 :: _) =>
        if b64 = "" then
          { st1 with error := some ("Failed to generate image. " ++ "No image data received from API.") }
        else
          { st1 with concepts := st1.concepts.map fun c =>
              if c.id = conceptId then
                { c with imageUrl := some ("data:image/png;base64," ++ b64) }
              else c }
      | _ =>
        { st1 with error := some ("Failed to generate image. " ++ "No image data received from API.") }
    | .error msg => { st1 with error := some ("Failed to generate image. " ++ msg) }
  { st2 with loadingImageId := none }

/-- What the proxy's upstream `fetch` to the image provider observes:
a success body, a non-ok response with an optional `error.message` in the
parsed error body, a non-ok response whose error body is not JSON (the
parse throws with `parseMsg`), or a thrown network error. -/
inductive UpstreamResult (β : Type) where
  | ok (body : β)
  | notOk (status : Nat) (errMsg : Option String)
  | badErrBody (parseMsg : String)
  | netError (msg : String)
deriving DecidableEq, Repr

/-- The JSON body the proxy route sends back: the provider's raw data, or
`{ error: msg }`. -/
inductive ProxyBody (β : Type) where
  | data (d : β)
  | err (msg : String)
deriving DecidableEq, Repr

/-- A finished proxy response, together with whether the handler attempted
to obtain a credential and whether it called the upstream provider. -/
structure ProxyResult (β : Type) where
  status : Nat
  body : ProxyBody β
  authAttempted : Bool
  upstreamCalled : Bool
deriving DecidableEq, Repr

/-- `app.post('/generate-image')` in src/server/index.js.  `prompt` is
`req.body.prompt` (`none` when absent, e.g. body `{}`); `!prompt` is also
true for the empty string.  `auth` is the credential acquisition
(`GoogleAuth` / `getAccessToken`), which either yields a token or throws;
`upstream` the provider call.  Every throw lands in the route's catch,
which answers 500 with the error's message. -/
def generateImageRoute {β : Type} (prompt : Option String)
    (auth : Except String String) (upstream : UpstreamResult β) : ProxyResult β :=
  match prompt with
  | none => ⟨400, .err "Prompt is required.", false, false⟩
  | some p =>
    if p = "" then ⟨400, .err "Prompt is required.", false, false⟩
    else
      match auth with
      | .error m => ⟨500, .err m, true, false⟩
      | .ok _token =>
        match upstream with
        | .ok d => ⟨200, .data d, true, true⟩
        | .notOk s em => ⟨500, .err (failMessage s em), true, true⟩
        | .badErrBody m => ⟨500, .err m, true, true⟩
        | .netError m => ⟨500, .err m, true, true⟩

/-- In the JavaScript runtime, errors thrown by `fetch` and by
`response.json()` carry non-empty messages; this predicate records that
side condition of the model for one response. -/
def msgSourceOk {β : Type} : Response β → Bool
  | .failBadBody m => !(m == "")
  | .netError m => !(m == "")
  | _ => true

/-- A small concrete session state, used to instantiate the theorems with
hypotheses at a concrete input. -/
def sampleState : AppState where
  apiKey := "key"
  brief := "Aqua Pura brief"
  concepts := [{ id := 1, text := "A", imageUrl := none },
               { id := 2, text := "B", imageUrl := none }]
  isLoadingIdeas := false
  loadingImageId := none
  error := none

lemma httpStatusMsg_ne (status : Nat) : httpStatusMsg status ≠ "" := by
  intro h
  have hlen := congrArg String.length h
  rw [httpStatusMsg, String.length_append] at hlen
  simp at hlen
  exact absurd hlen.1 (by decide)

lemma thrownMsg_ne {β : Type} (r : Response β) (hok : msgSourceOk r = true)
    (m : String) (hm : thrownMsg r = some m) : m ≠ "" := by
  cases r with
  | ok b => simp [thrownMsg] at hm
  | tooMany => simp [thrownMsg] at hm
  | fail s em =>
    simp only [thrownMsg, Option.some.injEq] at hm
    subst hm
    cases em with
    | none => exact httpStatusMsg_ne s
    | some m' =>
      by_cases h' : m' = "" <;> simp [failMessage, h']
      exact httpStatusMsg_ne s
  | failBadBody pm =>
    simp only [thrownMsg, Option.some.injEq] at hm
    subst hm
    simpa [msgSourceOk] using hok
  | netError nm =>
    simp only [thrownMsg, Option.some.injEq] at hm
    subst hm
    simpa [msgSourceOk] using hok

lemma fetchLoop_429_then_ok {β : Type} (resp : Nat → Response β) (body : β) :
    ∀ (k i remaining d : Nat) (trace : List Nat), k < remaining →
    (∀ j, j < k → resp (i + j) = .tooMany) → resp (i + k) = .ok body →
    (fetchLoop resp i remaining d trace).1 = .ok body := by
  intro k
  induction k with
  | zero =>
    intro i remaining d trace hk _ hok
    obtain ⟨r, rfl⟩ : ∃ r, remaining = r + 1 := ⟨remaining - 1, by omega⟩
    simp only [Nat.add_zero] at hok
    simp [fetchLoop, hok]
  | succ k ih =>
    intro i remaining d trace hk h429 hok
    obtain ⟨r, rfl⟩ : ∃ r, remaining = r + 1 := ⟨remaining - 1, by omega⟩
    have h0 : resp i = .tooMany := by
      have := h429 0 (Nat.succ_pos k)
      simpa using this
    simp only [fetchLoop, h0]
    refine ih (i + 1) r (d * 2) (trace ++ [d]) (by omega) ?_ ?_
    · intro j hj
      have := h429 (j + 1) (by omega)
      rwa [show i + (j + 1) = i + 1 + j by omega] at this
    · rwa [show i + (k + 1) = i + 1 + k by omega] at hok

lemma range_pow_shift (d m : Nat) :
    (List.range (m + 1)).map (fun j => d * 2 ^ j)
      = d :: (List.range m).map (fun j => d * 2 * 2 ^ j) := by
  rw [List.range_succ_eq_map, List.map_cons, List.map_map]
  refine congrArg₂ List.cons (by simp) ?_
  induction m with
  | zero => simp
  | succ m ihm =>
    rw [List.range_succ, List.map_append, List.map_append, ihm]
    simp [Function.comp, pow_succ]
    ring

lemma fetchLoop_trace {β : Type} (resp : Nat → Response β) :
    ∀ (remaining i d : Nat) (trace : List Nat),
    ∃ m, (fetchLoop resp i remaining d trace).2
        = trace ++ (List.range m).map (fun j => d * 2 ^ j) := by
  intro remaining
  induction remaining with
  | zero =>
    intro i d trace
    exact ⟨0, by simp [fetchLoop]⟩
  | succ r ih =>
    intro i d trace
    have step : ∃ m, (fetchLoop resp (i + 1) r (d * 2) (trace ++ [d])).2
        = trace ++ (List.range m).map (fun j => d * 2 ^ j) := by
      obtain ⟨m, hm⟩ := ih (i + 1) (d * 2) (trace ++ [d])
      refine ⟨m + 1, ?_⟩
      rw [hm, range_pow_shift, List.append_assoc]
      simp
    cases hr : resp i with
    | ok b => exact ⟨0, by simp [fetchLoop, hr]⟩
    | tooMany => simpa [fetchLoop, hr] using step
    | fail s em =>
      by_cases hr0 : r = 0
      · subst hr0
        exact ⟨0, by simp [fetchLoop, hr]⟩
      · simpa [fetchLoop, hr, hr0] using step
    | failBadBody pm =>
      by_cases hr0 : r = 0
      · subst hr0
        exact ⟨0, by simp [fetchLoop, hr]⟩
      · simpa [fetchLoop, hr, hr0] using step
    | netError nm =>
      by_cases hr0 : r = 0
      · subst hr0
        exact ⟨0, by simp [fetchLoop, hr]⟩
      · simpa [fetchLoop, hr, hr0] using step

lemma fetchLoop_all_fail {β : Type} (resp : Nat → Response β) :
    ∀ (remaining i d : Nat) (trace : List Nat), 0 < remaining →
    (∀ j, j < remaining → isOkResponse (resp (i + j)) = false) →
    (fetchLoop resp i remaining d trace).1
      = .error ((thrownMsg (resp (i + remaining - 1))).getD
          "Request failed after multiple retries.") := by
  intro remaining
  induction remaining with
  | zero => intro i d trace h; omega
  | succ r ih =>
    intro i d trace _ hfail
    have h0 : isOkResponse (resp i) = false := by
      have := hfail 0 (Nat.succ_pos r)
      simpa using this
    have hnext : 0 < r → (fetchLoop resp (i + 1) r (d * 2) (trace ++ [d])).1
        = .error ((thrownMsg (resp (i + r))).getD
            "Request failed after multiple retries.") := by
      intro hr
      have := ih (i + 1) (d * 2) (trace ++ [d]) hr (fun j hj => by
        have := hfail (j + 1) (by omega)
        rwa [show i + (j + 1) = i + 1 + j by omega] at this)
      rwa [show i + 1 + r - 1 = i + r by omega] at this
    cases hr : resp i with
    | ok b =>
      rw [hr] at h0
      simp [isOkResponse] at h0
    | tooMany =>
      rcases Nat.eq_zero_or_pos r with hr0 | hr0
      · subst hr0
        simp [fetchLoop, hr, thrownMsg]
      · obtain ⟨r', rfl⟩ : ∃ r', r = r' + 1 := ⟨r - 1, by omega⟩
        simp only [fetchLoop, hr]
        rw [show i + (r' + 1 + 1) - 1 = i + (r' + 1) by omega]
        exact hnext (Nat.succ_pos r')
    | fail s em =>
      rcases Nat.eq_zero_or_pos r with hr0 | hr0
      · subst hr0
        simp [fetchLoop, hr, thrownMsg]
      · obtain ⟨r', rfl⟩ : ∃ r', r = r' + 1 := ⟨r - 1, by omega⟩
        simp only [fetchLoop, hr]
        rw [if_neg (Nat.succ_ne_zero r')]
        rw [show i + (r' + 1 + 1) - 1 = i + (r' + 1) by omega]
        exact hnext (Nat.succ_pos r')
    | failBadBody pm =>
      rcases Nat.eq_zero_or_pos r with hr0 | hr0
      · subst hr0
        simp [fetchLoop, hr, thrownMsg]
      · obtain ⟨r', rfl⟩ : ∃ r', r = r' + 1 := ⟨r - 1, by omega⟩
        simp only [fetchLoop, hr]
        rw [if_neg (Nat.succ_ne_zero r')]
        rw [show i + (r' + 1 + 1) - 1 = i + (r' + 1) by omega]
        exact hnext (Nat.succ_pos r')
    | netError nm =>
      rcases Nat.eq_zero_or_pos r with hr0 | hr0
      · subst hr0
        simp [fetchLoop, hr, thrownMsg]
      · obtain ⟨r', rfl⟩ : ∃ r', r = r' + 1 := ⟨r - 1, by omega⟩
        simp only [fetchLoop, hr]
        rw [if_neg (Nat.succ_ne_zero r')]
        rw [show i + (r' + 1 + 1) - 1 = i + (r' + 1) by omega]
        exact hnext (Nat.succ_pos r')

/-- Claim C1, counterexample: the claim says a non-ok non-429 response makes
`fetchWithBackoff` fail immediately with the parsed message and perform no
further attempts.  On the sequence whose first response is a 500 with error
message "boom" and whose second response is ok with body 7, the invocation
instead sleeps 1000 ms and returns the second response's body: the thrown
error is caught by the same iteration's catch and retried. -/
theorem C1_counterexample :
    fetchWithBackoff (fun i => if i = 0 then Response.fail 500 (some "boom") else Response.ok 7) 5
      = (Outcome.ok 7, [1000]) := by
  rfl

/-- Claim C1 as amended: a non-ok non-429 response makes the wrapper throw
an error carrying the parsed message (`errData.error?.message` or the HTTP
status text), but the throw is caught by the same iteration's catch and
retried with backoff like any other error; only when it happens on the last
attempt (`i === maxRetries - 1`) does the invocation terminate immediately
with that message. -/
theorem C1_nonOk_throw_retried {β : Type} (resp : Nat → Response β)
    (i r d s : Nat) (trace : List Nat) (em : Option String)
    (h : resp i = Response.fail s em) :
    fetchLoop resp i 1 d trace = (Outcome.error (failMessage s em), trace)
      ∧ fetchLoop resp i (r + 2) d trace
          = fetchLoop resp (i + 1) (r + 1) (d * 2) (trace ++ [d]) := by
  constructor
  · simp [fetchLoop, h]
  · simp [fetchLoop, h]

/-- Witness for the amended claim C1, at the constant 500-response oracle. -/
theorem C1_nonOk_throw_retried_witness :
    fetchLoop (fun _ => Response.fail 500 (some "boom") : Nat → Response Nat) 0 1 1000 []
        = (Outcome.error (failMessage 500 (some "boom")), [])
      ∧ fetchLoop (fun _ => Response.fail 500 (some "boom") : Nat → Response Nat) 0 2 1000 []
          = fetchLoop (fun _ => Response.fail 500 (some "boom") : Nat → Response Nat) 1 1 2000 [1000] :=
  C1_nonOk_throw_retried (fun _ => Response.fail 500 (some "boom")) 0 0 1000 500 [] (some "boom") rfl

/-- Claim C3: with the default budget of 5 attempts, a sequence of k 429
responses (1 ≤ k, within the budget) followed by a success with JSON body
`body` makes `fetchWithBackoff` return that parsed body and not fail. -/
theorem C3_429_then_success {β : Type} (resp : Nat → Response β) (k : Nat) (body : β)
    (_hk1 : 1 ≤ k) (hk : k < 5)
    (h429 : ∀ j, j < k → resp j = .tooMany) (hok : resp k = .ok body) :
    (fetchWithBackoff resp 5).1 = .ok body := by
  refine fetchLoop_429_then_ok resp body k 0 5 1000 [] hk ?_ ?_
  · intro j hj
    simpa using h429 j hj
  · simpa using hok

/-- Witness for claim C3: two 429 responses, then a success with body 42. -/
theorem C3_429_then_success_witness :
    (fetchWithBackoff (fun i => if i < 2 then Response.tooMany else Response.ok 42) 5).1
      = Outcome.ok 42 :=
  C3_429_then_success (fun i => if i < 2 then Response.tooMany else Response.ok (42 : Nat)) 2 42
    (by decide) (by decide) (by decide) (by decide)

/-- Claim C4: every delay the wrapper sleeps is `1000 * 2^(k-1)` ms before
retry attempt k; with the trace 0-indexed, the j-th recorded delay (the one
before retry attempt j+1) is `1000 * 2^j`: the counter starts at 1000 ms on
every invocation and doubles after each sleep, uncapped within the budget. -/
theorem C4_backoff_schedule {β : Type} (resp : Nat → Response β) (maxRetries j : Nat)
    (h : j < ((fetchWithBackoff resp maxRetries).2).length) :
    ((fetchWithBackoff resp maxRetries).2).getD j 0 = 1000 * 2 ^ j := by
  obtain ⟨m, hm⟩ := fetchLoop_trace resp maxRetries 0 1000 []
  have hm' : (fetchWithBackoff resp maxRetries).2
      = (List.range m).map (fun t => 1000 * 2 ^ t) := by
    simpa [fetchWithBackoff] using hm
  rw [hm'] at h ⊢
  rw [List.getD_eq_getElem _ _ h]
  have hj : j < m := by simpa using h
  simp [hj]

/-- Witness for claim C4: with every response a 429 and budget 2, the
second recorded delay is 2000 ms. -/
theorem C4_backoff_schedule_witness :
    ((fetchWithBackoff (fun _ => Response.tooMany : Nat → Response Nat) 2).2).getD 1 0
      = 1000 * 2 ^ 1 :=
  C4_backoff_schedule (fun _ => Response.tooMany) 2 1 (by decide)

/-- Claim C5: when all `maxRetries` attempts fail (no `response.ok`), the
invocation fails; the message is the last attempt's thrown error when that
attempt threw, and the generic "Request failed after multiple retries."
when the loop ended without a throw (last attempt a 429); either way it is
non-empty, given that the runtime's own error messages are non-empty
(`msgSourceOk`). -/
theorem C5_exhaustion_fails {β : Type} (resp : Nat → Response β) (maxRetries : Nat)
    (hpos : 0 < maxRetries)
    (hfail : ∀ i, i < maxRetries → isOkResponse (resp i) = false)
    (hmsg : ∀ i, i < maxRetries → msgSourceOk (resp i) = true) :
    (fetchWithBackoff resp maxRetries).1
        = .error ((thrownMsg (resp (maxRetries - 1))).getD
            "Request failed after multiple retries.")
      ∧ ((thrownMsg (resp (maxRetries - 1))).getD
            "Request failed after multiple retries.") ≠ "" := by
  constructor
  · have := fetchLoop_all_fail resp maxRetries 0 1000 [] hpos (fun j hj => by
      simpa using hfail j hj)
    simpa [fetchWithBackoff] using this
  · cases hmcase : thrownMsg (resp (maxRetries - 1)) with
    | none => simp
    | some m =>
      simp only [Option.getD_some]
      exact thrownMsg_ne _ (hmsg (maxRetries - 1) (by omega)) m hmcase

/-- Witness for claim C5: every attempt throws a network error "boom" with
budget 2; the call fails with "boom". -/
theorem C5_exhaustion_fails_witness :
    (fetchWithBackoff (fun _ => Response.netError "boom" : Nat → Response Nat) 2).1
        = Outcome.error
            ((thrownMsg ((fun _ => Response.netError "boom" : Nat → Response Nat) (2 - 1))).getD
              "Request failed after multiple retries.")
      ∧ ((thrownMsg ((fun _ => Response.netError "boom" : Nat → Response Nat) (2 - 1))).getD
            "Request failed after multiple retries.") ≠ "" :=
  C5_exhaustion_fails (fun _ => Response.netError "boom") 2 (by decide) (by decide) (by decide)

/-- Claim C2: the concept-list parser splits on `\d+\.\s+`, discards
fragments empty after trimming, gives the survivors pairwise distinct
identifiers (`Date.now() + index`) in original order, and leaves the image
field absent; on the input "1. Alpha\n2. Beta\n3. " it yields exactly the
two concepts "Alpha" and "Beta" in that order. -/
theorem C2_parse_behavior (now : Nat) (text : String) :
    ((parseConcepts now text).map Concept.id).Nodup
      ∧ (parseConcepts now text).map Concept.text
          = ((jsSplitNumbered text).filter fun c => 0 < (jsTrim c).length).map jsTrim
      ∧ (∀ c ∈ parseConcepts now text, c.imageUrl = none)
      ∧ parseConcepts now "1. Alpha\n2. Beta\n3. "
          = [{ id := now, text := "Alpha", imageUrl := none },
             { id := now + 1, text := "Beta", imageUrl := none }] := by
  refine ⟨?_, ?_, ?_, ?_⟩
  · have h1 : (parseConcepts now text).map Concept.id
        = (List.range ((jsSplitNumbered text).filter fun c => 0 < (jsTrim c).length).length).map
            (fun x => now + x) := by
      simp only [parseConcepts, List.map_map]
      rw [show (Concept.id ∘ fun p : Nat × String =>
            ({ id := now + p.1, text := jsTrim p.2, imageUrl := none } : Concept))
          = (fun x => now + x) ∘ Prod.fst from rfl]
      rw [← List.map_map, List.enum_map_fst]
    rw [h1]
    exact (List.nodup_range _).map (add_right_injective now)
  · simp only [parseConcepts, List.map_map]
    rw [show (Concept.text ∘ fun p : Nat × String =>
          ({ id := now + p.1, text := jsTrim p.2, imageUrl := none } : Concept))
        = jsTrim ∘ Prod.snd from rfl]
    rw [← List.map_map, List.enum_map_snd]
  · intro c hc
    simp only [parseConcepts, List.mem_map] at hc
    obtain ⟨p, _, rfl⟩ := hc
    rfl
  · rfl

/-- Claim C6: with an empty brief, `generateIdeas` performs zero network
calls, sets the validation error, and leaves both the concept list and the
loading flag unchanged. -/
theorem C6_empty_brief (st : AppState) (now : Nat) (net : Outcome (Option String))
    (h : st.brief = "") :
    (generateIdeas st now net).2 = 0
      ∧ (generateIdeas st now net).1.error = some "Please enter a creative brief."
      ∧ (generateIdeas st now net).1.concepts = st.concepts
      ∧ (generateIdeas st now net).1.isLoadingIdeas = st.isLoadingIdeas := by
  simp [generateIdeas, h]

/-- Witness for claim C6, at a concrete state with an empty brief. -/
theorem C6_empty_brief_witness :
    (generateIdeas { sampleState with brief := "" } 0 (Outcome.ok (some "1. X"))).2 = 0
      ∧ (generateIdeas { sampleState with brief := "" } 0 (Outcome.ok (some "1. X"))).1.error
          = some "Please enter a creative brief."
      ∧ (generateIdeas { sampleState with brief := "" } 0 (Outcome.ok (some "1. X"))).1.concepts
          = ({ sampleState with brief := "" } : AppState).concepts
      ∧ (generateIdeas { sampleState with brief := "" } 0 (Outcome.ok (some "1. X"))).1.isLoadingIdeas
          = ({ sampleState with brief := "" } : AppState).isLoadingIdeas :=
  C6_empty_brief { sampleState with brief := "" } 0 (Outcome.ok (some "1. X")) rfl

/-- Claim C7: when the image call for concept `cid` succeeds with
`{ predictions: [{ bytesBase64Encoded: "QUJD" }] }`, the concept list keeps
its length, the concept at each position with id `cid` gets imageUrl
`"data:image/png;base64,QUJD"` with id and text untouched (the record
update), and every other concept is returned unmodified. -/
theorem C7_visualize_updates_only_target (st : AppState) (cid i : Nat) (c : Concept)
    (hc : st.concepts[i]? = some c) :
    (visualizeConcept st cid (Outcome.ok (some [some "QUJD"]))).concepts.length
        = st.concepts.length
      ∧ (visualizeConcept st cid (Outcome.ok (some [some "QUJD"]))).concepts[i]?
        = some (if c.id = cid then
            { c with imageUrl := some "data:image/png;base64,QUJD" } else c) := by
  have hmap : (visualizeConcept st cid (Outcome.ok (some [some "QUJD"]))).concepts
      = st.concepts.map (fun d => if d.id = cid then
          { d with imageUrl := some ("data:image/png;base64," ++ "QUJD") } else d) := by
    simp [visualizeConcept]
  rw [hmap]
  refine ⟨List.length_map _ _, ?_⟩
  rw [List.getElem?_map, hc]
  rfl

/-- Witness for claim C7: in `sampleState`, visualizing concept 2 sets its
image and leaves concept 1 alone. -/
theorem C7_visualize_updates_only_target_witness :
    (visualizeConcept sampleState 2 (Outcome.ok (some [some "QUJD"]))).concepts.length
        = sampleState.concepts.length
      ∧ (visualizeConcept sampleState 2 (Outcome.ok (some [some "QUJD"]))).concepts[1]?
        = some (if ({ id := 2, text := "B", imageUrl := none } : Concept).id = 2 then
            { ({ id := 2, text := "B", imageUrl := none } : Concept) with
                imageUrl := some "data:image/png;base64,QUJD" }
            else { id := 2, text := "B", imageUrl := none }) :=
  C7_visualize_updates_only_target sampleState 2 1
    { id := 2, text := "B", imageUrl := none } rfl

/-- Claim C8, counterexample: the claim says no terminal error loses the
previously generated concept list.  But `generateIdeas` clears the concept
list before issuing its request, so when the request then fails the
previously generated (non-empty) list is gone. -/
theorem C8_counterexample :
    (generateIdeas sampleState 0 (Outcome.error "network down")).1.error
        = some "Failed to generate ideas. network down"
      ∧ (generateIdeas sampleState 0 (Outcome.error "network down")).1.concepts = []
      ∧ sampleState.concepts ≠ [] := by
  refine ⟨by decide, by decide, by decide⟩

/-- Claim C8 as amended: a visualize action that ends in a terminal error
leaves the concept list exactly as it was, and a validation error leaves it
unchanged too; but an idea-generation action that gets past validation
clears the concept list when it starts, so after its terminal error the
list is empty, not the previous one. -/
theorem C8_errors_and_content (st : AppState) (cid now : Nat)
    (netI : Outcome (Option (List (Option String)))) (netT : Outcome (Option String)) :
    ((visualizeConcept st cid netI).error ≠ none →
        (visualizeConcept st cid netI).concepts = st.concepts)
      ∧ (st.brief ≠ "" → (generateIdeas st now netT).1.error ≠ none →
          (generateIdeas st now netT).1.concepts = [])
      ∧ (st.brief = "" → (generateIdeas st now netT).1.concepts = st.concepts) := by
  refine ⟨?_, ?_, ?_⟩
  · intro herr
    cases netI with
    | error msg => simp [visualizeConcept]
    | ok body =>
      rcases body with _ | ⟨_ | ⟨hd, rest⟩⟩
      · simp [visualizeConcept]
      · simp [visualizeConcept]
      · rcases hd with _ | b64
        · simp [visualizeConcept]
        · by_cases hb : b64 = ""
          · simp [visualizeConcept, hb]
          · exfalso
            apply herr
            simp [visualizeConcept, hb]
  · intro hbrief herr
    cases netT with
    | error msg => simp [generateIdeas, hbrief]
    | ok textOpt =>
      rcases textOpt with _ | t
      · simp [generateIdeas, hbrief]
      · by_cases ht : t = ""
        · simp [generateIdeas, hbrief, ht]
        · exfalso
          apply herr
          simp [generateIdeas, hbrief, ht]
  · intro hbrief
    simp [generateIdeas, hbrief]

/-- Witness for the amended claim C8: a failed visualize call on
`sampleState` leaves the two concepts in place. -/
theorem C8_errors_and_content_witness :
    (visualizeConcept sampleState 1 (Outcome.error "boom")).concepts = sampleState.concepts :=
  (C8_errors_and_content sampleState 1 0 (Outcome.error "boom") (Outcome.error "x")).1 (by decide)

/-- Claim C9: a request to the proxy with no prompt in the body answers
400 with `{ error: "Prompt is required." }` and neither attempts to obtain
a credential nor contacts the upstream provider. -/
theorem C9_missing_prompt_400 {β : Type} (auth : Except String String)
    (upstream : UpstreamResult β) :
    generateImageRoute none auth upstream
      = { status := 400, body := ProxyBody.err "Prompt is required.",
          authAttempted := false, upstreamCalled := false } := rfl

/-- Claim C10: once an action completes, its loading indicator is cleared:
`generateIdeas` ends with the loading flag false (the `finally`; the
empty-brief early return never set it, and the action only starts from a
non-loading state because the button is disabled while loading), and
`visualizeConcept` ends with the loading-image identifier null. -/
theorem C10_loading_cleared (st : AppState) (now cid : Nat)
    (netT : Outcome (Option String)) (netI : Outcome (Option (List (Option String))))
    (h : st.isLoadingIdeas = false) :
    (generateIdeas st now netT).1.isLoadingIdeas = false
      ∧ (visualizeConcept st cid netI).loadingImageId = none := by
  constructor
  · by_cases hb : st.brief = ""
    · simp [generateIdeas, hb, h]
    · simp [generateIdeas, hb]
  · simp [visualizeConcept]

/-- Witness for claim C10, at `sampleState` with a failing network call. -/
theorem C10_loading_cleared_witness :
    (generateIdeas sampleState 0 (Outcome.error "x")).1.isLoadingIdeas = false
      ∧ (visualizeConcept sampleState 1 (Outcome.error "x")).loadingImageId = none :=
  C10_loading_cleared sampleState 0 1 (Outcome.error "x") (Outcome.error "x") rfl

end AgencyAI
